import Mathlib

/-!
# Verification of the opengametools `.vox` reader/writer (`ogt_vox.h`)

A shallow embedding of the MagicaVoxel `.vox` scene reader and writer from
`src/unnamed/part_006` (the single-header library `ogt_vox.h`, v0.6).

Modelling conventions, used throughout:

* Bytes are `Nat` values (< 256 where the source reads from a buffer);
  multi-byte integers are little-endian, as in the source.
* `uint32_t` arithmetic carries an explicit `% 4294967296` at the points
  where the source can overflow.
* The 4x4 `float` matrices of the source (`ogt_vox_transform`) are modelled
  with `Int` entries: every matrix the file format can produce has entries
  in `{-1, 0, 1}` (rotations) and integral translations, on which the
  source's float arithmetic is exact.
* `_vox_file_read` in C copies however many bytes remain and leaves the
  destination's remaining bytes with their previous contents (zero for
  zero-initialised locals, indeterminate otherwise); short reads are
  modelled as padding with 0.
* Debug-only `assert(...)` statements in the source have no release-build
  effect and are modelled by nothing; where a theorem depends on a
  condition an assert documents, the condition appears as a hypothesis.
* Allocation never fails in the model (the source returns NULL from
  `ogt_vox_read_scene` when `_vox_calloc` fails).
-/

set_option maxRecDepth 16384

namespace OgtVox

/-- Little-endian bytes of a `uint32_t` value. -/
def u32le (n : Nat) : List Nat :=
  [n % 256, n / 256 % 256, n / 65536 % 256, n / 16777216 % 256]

/-- Read a little-endian `uint32_t` from a byte list at `off`; bytes past
the end are 0 (see the short-read convention in the file comment). -/
def u32At (bs : List Nat) (off : Nat) : Nat :=
  bs.getD off 0 + 256 * bs.getD (off + 1) 0 + 65536 * bs.getD (off + 2) 0 +
    16777216 * bs.getD (off + 3) 0

/-- Source: `MAKE_VOX_CHUNK_ID(c0,c1,c2,c3) = c0 | (c1<<8) | (c2<<16) | (c3<<24)`. -/
def makeChunkId (c0 c1 c2 c3 : Nat) : Nat :=
  c0 + 256 * c1 + 65536 * c2 + 16777216 * c3

def CHUNK_ID_VOX_ : Nat := makeChunkId 86 79 88 32    -- 'V' 'O' 'X' ' '
def CHUNK_ID_MAIN : Nat := makeChunkId 77 65 73 78    -- 'M' 'A' 'I' 'N'
def CHUNK_ID_SIZE : Nat := makeChunkId 83 73 90 69    -- 'S' 'I' 'Z' 'E'
def CHUNK_ID_XYZI : Nat := makeChunkId 88 89 90 73    -- 'X' 'Y' 'Z' 'I'
def CHUNK_ID_RGBA : Nat := makeChunkId 82 71 66 65    -- 'R' 'G' 'B' 'A'
def CHUNK_ID_nTRN : Nat := makeChunkId 110 84 82 78   -- 'n' 'T' 'R' 'N'
def CHUNK_ID_nGRP : Nat := makeChunkId 110 71 82 80   -- 'n' 'G' 'R' 'P'
def CHUNK_ID_nSHP : Nat := makeChunkId 110 83 72 80   -- 'n' 'S' 'H' 'P'
def CHUNK_ID_IMAP : Nat := makeChunkId 73 77 65 80    -- 'I' 'M' 'A' 'P'
def CHUNK_ID_LAYR : Nat := makeChunkId 76 65 89 82    -- 'L' 'A' 'Y' 'R'
def CHUNK_ID_MATL : Nat := makeChunkId 77 65 84 76    -- 'M' 'A' 'T' 'L'
def CHUNK_ID_MATT : Nat := makeChunkId 77 65 84 84    -- 'M' 'A' 'T' 'T'

/-- Source: `struct vec3 { float x, y, z; }` with the exact-integer convention. -/
structure vec3 where
  x : Int
  y : Int
  z : Int
deriving DecidableEq

def vec3_make (x y z : Int) : vec3 := ⟨x, y, z⟩

def vec3_negate (v : vec3) : vec3 := ⟨-v.x, -v.y, -v.z⟩

/-- Source: `struct ogt_vox_transform`: column-major 4x4 matrix; `mIJ` is row `J` of
column `I` (so row 0 of the 3x3 rotation part is `(m00, m10, m20)`). -/
structure ogt_vox_transform where
  m00 : Int
  m01 : Int
  m02 : Int
  m03 : Int
  m10 : Int
  m11 : Int
  m12 : Int
  m13 : Int
  m20 : Int
  m21 : Int
  m22 : Int
  m23 : Int
  m30 : Int
  m31 : Int
  m32 : Int
  m33 : Int
deriving DecidableEq

/-- Source: `_vox_transform_identity`. -/
def _vox_transform_identity : ogt_vox_transform :=
  ⟨1, 0, 0, 0,
   0, 1, 0, 0,
   0, 0, 1, 0,
   0, 0, 0, 1⟩

/-- Source: `_vox_transform_multiply(a, b)`: the source's 16 component formulas. -/
def _vox_transform_multiply (a b : ogt_vox_transform) : ogt_vox_transform where
  m00 := a.m00 * b.m00 + a.m01 * b.m10 + a.m02 * b.m20 + a.m03 * b.m30
  m01 := a.m00 * b.m01 + a.m01 * b.m11 + a.m02 * b.m21 + a.m03 * b.m31
  m02 := a.m00 * b.m02 + a.m01 * b.m12 + a.m02 * b.m22 + a.m03 * b.m32
  m03 := a.m00 * b.m03 + a.m01 * b.m13 + a.m02 * b.m23 + a.m03 * b.m33
  m10 := a.m10 * b.m00 + a.m11 * b.m10 + a.m12 * b.m20 + a.m13 * b.m30
  m11 := a.m10 * b.m01 + a.m11 * b.m11 + a.m12 * b.m21 + a.m13 * b.m31
  m12 := a.m10 * b.m02 + a.m11 * b.m12 + a.m12 * b.m22 + a.m13 * b.m32
  m13 := a.m10 * b.m03 + a.m11 * b.m13 + a.m12 * b.m23 + a.m13 * b.m33
  m20 := a.m20 * b.m00 + a.m21 * b.m10 + a.m22 * b.m20 + a.m23 * b.m30
  m21 := a.m20 * b.m01 + a.m21 * b.m11 + a.m22 * b.m21 + a.m23 * b.m31
  m22 := a.m20 * b.m02 + a.m21 * b.m12 + a.m22 * b.m22 + a.m23 * b.m32
  m23 := a.m20 * b.m03 + a.m21 * b.m13 + a.m22 * b.m23 + a.m23 * b.m33
  m30 := a.m30 * b.m00 + a.m31 * b.m10 + a.m32 * b.m20 + a.m33 * b.m30
  m31 := a.m30 * b.m01 + a.m31 * b.m11 + a.m32 * b.m21 + a.m33 * b.m31
  m32 := a.m30 * b.m02 + a.m31 * b.m12 + a.m32 * b.m22 + a.m33 * b.m32
  m33 := a.m30 * b.m03 + a.m31 * b.m13 + a.m32 * b.m23 + a.m33 * b.m33

/-- Multiplying by the identity on the right is the identity operation
(the composition seeded with `_vox_transform_identity` in
`ogt_vox_read_scene` leaves the first local transform unchanged). -/
theorem _vox_transform_multiply_identity (t : ogt_vox_transform) :
    _vox_transform_multiply t _vox_transform_identity = t := by
  cases t
  simp [_vox_transform_multiply, _vox_transform_identity]

/-! ## Packed-rotation codec

`_vox_make_transform_from_dict_strings` (the rotation branch, i.e. the
unpack direction) and `_vox_make_packed_rotation_from_transform` /
`_vox_get_vec3_rotation_bits` (the pack direction). -/

/-- Source: `k_vectors`: per-index unit row vectors; index 3 is the source's
"invalid" zero vector. -/
def k_vectors : List vec3 :=
  [vec3_make 1 0 0, vec3_make 0 1 0, vec3_make 0 0 1, vec3_make 0 0 0]

/-- Source: `k_row2_index`: row-2 column index by elimination from the bitmask
`(1 << row0) | (1 << row1)`; `none` models the source's `~0ul` entries
(whose later use as an array index is a debug-assert / out-of-bounds). -/
def k_row2_index : List (Option Nat) :=
  [none, none, none, some 2, none, some 1, some 0, none]

/-- The rotation branch of `_vox_make_transform_from_dict_strings`, applied
to the already-converted integer `packed_rotation_bits`.  Returns `none`
exactly where the source would index `k_row2_index` or `k_vectors` out of
bounds / hit the `row2_vec_index != ~0ul` assert (an invalid code). -/
def _vox_unpack_rotation (bits : Nat) : Option ogt_vox_transform :=
  let row0_vec_index := bits % 4
  let row1_vec_index := bits / 4 % 4
  match k_row2_index.getD ((1 <<< row0_vec_index) ||| (1 <<< row1_vec_index)) none with
  | none => none
  | some row2_vec_index =>
    let row0 := k_vectors.getD row0_vec_index (vec3_make 0 0 0)
    let row1 := k_vectors.getD row1_vec_index (vec3_make 0 0 0)
    let row2 := k_vectors.getD row2_vec_index (vec3_make 0 0 0)
    let row0 := if bits.testBit 4 then vec3_negate row0 else row0
    let row1 := if bits.testBit 5 then vec3_negate row1 else row1
    let row2 := if bits.testBit 6 then vec3_negate row2 else row2
    -- the source stores rows into the columns of a transform that starts
    -- as the identity (translation part and last row untouched)
    some { _vox_transform_identity with
             m00 := row0.x, m01 := row1.x, m02 := row2.x
             m10 := row0.y, m11 := row1.y, m12 := row2.y
             m20 := row0.z, m21 := row1.z, m22 := row2.z }

/-- Source: `_vox_get_vec3_rotation_bits`: scans the three components in order,
remembering the index and sign of the last component equal to ±1 (initial
state: index 3, non-negative; components that are not ±1 are asserted to be
0 in debug builds).  Returns `(is_negative, out_index)`. -/
def _vox_get_vec3_rotation_bits (v : vec3) : Bool × Nat :=
  let comps := [v.x, v.y, v.z]
  (List.range 3).foldl
    (fun acc i =>
      let fi := comps.getD i 0
      if fi = 1 ∨ fi = -1 then (decide (fi < 0), i) else acc)
    (false, 3)

/-- Source: `_vox_make_packed_rotation_from_transform`: swizzle the columns into
MagicaVoxel's rows, extract each row's axis index and sign, and pack the
byte `row0_index | row1_index<<2 | signs<<4,5,6` (row 2's index is not
stored; debug builds assert the three indices cover {0,1,2}). -/
def _vox_make_packed_rotation_from_transform (t : ogt_vox_transform) : Nat :=
  let row0 := vec3_make t.m00 t.m10 t.m20
  let row1 := vec3_make t.m01 t.m11 t.m21
  let row2 := vec3_make t.m02 t.m12 t.m22
  let r0 := _vox_get_vec3_rotation_bits row0
  let r1 := _vox_get_vec3_rotation_bits row1
  let r2 := _vox_get_vec3_rotation_bits row2
  r0.2 ||| (r1.2 <<< 2) ||| (if r0.1 then 1 <<< 4 else 0) |||
    (if r1.1 then 1 <<< 5 else 0) ||| (if r2.1 then 1 <<< 6 else 0)

/-! ### The 24 signed axis-permutation rotations -/

/-- The six signed unit axis row vectors. -/
def axisRows : List vec3 :=
  [vec3_make 1 0 0, vec3_make (-1) 0 0,
   vec3_make 0 1 0, vec3_make 0 (-1) 0,
   vec3_make 0 0 1, vec3_make 0 0 (-1)]

/-- Row `i` of the 3x3 rotation part (MagicaVoxel row order, as extracted
by `_vox_make_packed_rotation_from_transform`). -/
def rotRow0 (t : ogt_vox_transform) : vec3 := vec3_make t.m00 t.m10 t.m20

def rotRow1 (t : ogt_vox_transform) : vec3 := vec3_make t.m01 t.m11 t.m21

def rotRow2 (t : ogt_vox_transform) : vec3 := vec3_make t.m02 t.m12 t.m22

/-- Determinant of the 3x3 rotation part: `row0 ⬝ (row1 × row2)`. -/
def det3 (t : ogt_vox_transform) : Int :=
  t.m00 * (t.m11 * t.m22 - t.m21 * t.m12)
    - t.m10 * (t.m01 * t.m22 - t.m21 * t.m02)
    + t.m20 * (t.m01 * t.m12 - t.m11 * t.m02)

/-- Source: `t` is one of the 24 signed axis-permutation rotation matrices: each
row of its 3x3 part is a signed unit axis vector, the determinant is +1
(proper rotation), and the translation part / last row are those of the
identity (a pure rotation). -/
def isRot24 (t : ogt_vox_transform) : Prop :=
  rotRow0 t ∈ axisRows ∧ rotRow1 t ∈ axisRows ∧ rotRow2 t ∈ axisRows ∧
    det3 t = 1 ∧
    t.m03 = 0 ∧ t.m13 = 0 ∧ t.m23 = 0 ∧
    t.m30 = 0 ∧ t.m31 = 0 ∧ t.m32 = 0 ∧ t.m33 = 1

instance (t : ogt_vox_transform) : Decidable (isRot24 t) := by
  unfold isRot24; infer_instance

/-- Build a pure rotation transform from its three MagicaVoxel rows. -/
def mkRotT (a b c : vec3) : ogt_vox_transform :=
  ⟨a.x, b.x, c.x, 0,
   a.y, b.y, c.y, 0,
   a.z, b.z, c.z, 0,
   0, 0, 0, 1⟩

/-- A valid packed rotation code: seven bits, the two stored row indices
name distinct axes (so unpacking succeeds), and the decoded matrix is a
proper rotation (determinant +1).  Exactly 24 byte values qualify. -/
def validRotCode (b : Nat) : Bool :=
  decide (b < 128) &&
    match _vox_unpack_rotation b with
    | some t => decide (det3 t = 1)
    | none => false

/-- Enumerated core of the matrix-side round trip: for every choice of the
three rows from the six signed axis vectors whose matrix has determinant
+1, unpacking the packed byte restores the matrix. -/
theorem unpack_pack_enum :
    ∀ i j k : Fin 6,
      det3 (mkRotT (axisRows.getD i.val (vec3_make 0 0 0))
          (axisRows.getD j.val (vec3_make 0 0 0))
          (axisRows.getD k.val (vec3_make 0 0 0))) = 1 →
        _vox_unpack_rotation
            (_vox_make_packed_rotation_from_transform
              (mkRotT (axisRows.getD i.val (vec3_make 0 0 0))
                (axisRows.getD j.val (vec3_make 0 0 0))
                (axisRows.getD k.val (vec3_make 0 0 0)))) =
          some (mkRotT (axisRows.getD i.val (vec3_make 0 0 0))
            (axisRows.getD j.val (vec3_make 0 0 0))
            (axisRows.getD k.val (vec3_make 0 0 0))) := by
  decide

/-- A member of `axisRows` is one of the six indexed entries. -/
theorem mem_axisRows_index {v : vec3} (h : v ∈ axisRows) :
    ∃ i : Fin 6, axisRows.getD i.val (vec3_make 0 0 0) = v := by
  simp only [axisRows, List.mem_cons, List.mem_singleton, List.not_mem_nil,
    or_false] at h
  rcases h with rfl | rfl | rfl | rfl | rfl | rfl
  · exact ⟨0, rfl⟩
  · exact ⟨1, rfl⟩
  · exact ⟨2, rfl⟩
  · exact ⟨3, rfl⟩
  · exact ⟨4, rfl⟩
  · exact ⟨5, rfl⟩

/-- The bounded byte-side round trip, settled by enumeration. -/
theorem pack_unpack_enum :
    ∀ b < 128, validRotCode b = true →
      (_vox_unpack_rotation b).map _vox_make_packed_rotation_from_transform =
        some b := by
  decide

/-- C2: the packed-rotation codec round-trips in both directions: for every
one of the 24 signed axis-permutation rotation matrices `M`,
`_vox_unpack_rotation (_vox_make_packed_rotation_from_transform M) = M`;
for every one of the 24 valid packed rotation byte codes `b`, packing the
matrix obtained by unpacking `b` yields `b` again (and there are exactly 24
valid codes). -/
theorem rotation_codec_round_trips :
    (∀ t : ogt_vox_transform, isRot24 t →
      _vox_unpack_rotation (_vox_make_packed_rotation_from_transform t) =
        some t) ∧
    (∀ b : Nat, validRotCode b = true →
      (_vox_unpack_rotation b).map _vox_make_packed_rotation_from_transform =
        some b) ∧
    ((List.range 128).filter validRotCode).length = 24 := by
  refine ⟨?_, ?_, by decide⟩
  · intro t ht
    obtain ⟨h0, h1, h2, hdet, e03, e13, e23, e30, e31, e32, e33⟩ := ht
    obtain ⟨i, hi⟩ := mem_axisRows_index h0
    obtain ⟨j, hj⟩ := mem_axisRows_index h1
    obtain ⟨k, hk⟩ := mem_axisRows_index h2
    cases t with
    | mk m00 m01 m02 m03 m10 m11 m12 m13 m20 m21 m22 m23 m30 m31 m32 m33 =>
      subst e03 e13 e23 e30 e31 e32 e33
      have e : ogt_vox_transform.mk m00 m01 m02 0 m10 m11 m12 0
          m20 m21 m22 0 0 0 0 1 =
          mkRotT (axisRows.getD i.val (vec3_make 0 0 0))
            (axisRows.getD j.val (vec3_make 0 0 0))
            (axisRows.getD k.val (vec3_make 0 0 0)) := by
        rw [hi, hj, hk]; rfl
      rw [e] at hdet ⊢
      exact unpack_pack_enum i j k hdet
  · intro b hb
    have hlt : b < 128 := by
      have := hb
      unfold validRotCode at this
      rcases Bool.and_eq_true_iff.mp this with ⟨h1, _⟩
      exact of_decide_eq_true h1
    exact pack_unpack_enum b hlt hb

/-- The rotation decoded from `_r = "17"` (spec scenario 6): row 0 is −Y,
row 1 is +X, row 2 is +Z. -/
def rot17 : ogt_vox_transform :=
  mkRotT (vec3_make 0 (-1) 0) (vec3_make 1 0 0) (vec3_make 0 0 1)

/-- Witness for `rotation_codec_round_trips` at the concrete rotation code
17 and its matrix. -/
theorem rotation_codec_round_trips_witness :
    isRot24 rot17 ∧
    _vox_unpack_rotation (_vox_make_packed_rotation_from_transform rot17) =
      some rot17 ∧
    validRotCode 17 = true ∧
    (_vox_unpack_rotation 17).map _vox_make_packed_rotation_from_transform =
      some 17 :=
  ⟨by decide, rotation_codec_round_trips.1 rot17 (by decide), by decide,
    rotation_codec_round_trips.2.1 17 (by decide)⟩

/-! ## Scene data model -/

/-- Source: `ogt_vox_rgba`. -/
structure ogt_vox_rgba where
  r : Nat
  g : Nat
  b : Nat
  a : Nat
deriving DecidableEq

/-- Source: `ogt_vox_model`: dimensions, content hash and the dense voxel grid
(`voxel_data` has `size_x*size_y*size_z` byte entries, x-major). -/
structure ogt_vox_model where
  size_x : Nat
  size_y : Nat
  size_z : Nat
  voxel_hash : Nat
  voxel_data : List Nat
deriving DecidableEq

/-- Source: `ogt_vox_instance`; the `name` pointer (NULL or a string owned by the
scene) is modelled as an optional byte string, abstracting the source's
string-offset-then-pointer-patch mechanism. -/
structure ogt_vox_instance where
  name : Option (List Nat)
  transform : ogt_vox_transform
  model_index : Nat
  layer_index : Nat
  hidden : Bool
deriving DecidableEq

/-- Source: `ogt_vox_layer`. -/
structure ogt_vox_layer where
  name : Option (List Nat)
  hidden : Bool
deriving DecidableEq

/-- Source: `ogt_vox_scene` (`num_models` etc. are the list lengths). -/
structure ogt_vox_scene where
  models : List ogt_vox_model
  instances : List ogt_vox_instance
  layers : List ogt_vox_layer
  palette : List ogt_vox_rgba
deriving DecidableEq

/-- Source: `_vox_scene_node_`: tagged variant over transform/group/shape;
`invalid` is the zero-initialised state of entries created by
`grow_to_fit_index` before (or never) being parsed. -/
inductive _vox_scene_node_ where
  | invalid : _vox_scene_node_
  | transformNode (name : List Nat) (transform : ogt_vox_transform)
      (child_node_id : Nat) (layer_id : Nat) (hidden : Bool) :
      _vox_scene_node_
  | groupNode (first_child_node_id_index : Nat) (num_child_nodes : Nat) :
      _vox_scene_node_
  | shapeNode (model_id : Nat) : _vox_scene_node_
deriving DecidableEq

/-- Source: `generate_instances_for_node`, with an explicit recursion budget: the C
function recurses on the node graph directly (unbounded for a cyclic graph,
which would overflow the C stack); on the acyclic graphs real files
produce, a budget of `nodes.length + 1` is never exhausted.  Instances are
returned in emission order.  The shape case's `model_ptrs.getD model_id
none` combines the source's bound check `model_id < model_ptrs.size()` with
its NULL check. -/
def generate_instances_for_node (fuel : Nat) (nodes : List _vox_scene_node_)
    (node_index : Nat) (child_id_array : List Nat) (layer_index : Nat)
    (transform : ogt_vox_transform)
    (model_ptrs : List (Option ogt_vox_model))
    (transform_last_name : Option (List Nat))
    (transform_last_hidden : Bool) : List ogt_vox_instance :=
  match fuel with
  | 0 => []
  | fuel + 1 =>
    match nodes.getD node_index _vox_scene_node_.invalid with
    | .transformNode name t child_node_id layer_id hidden =>
      -- child transform * parent transform
      let new_transform := _vox_transform_multiply t transform
      let new_transform_name := if name ≠ [] then some name else none
      let last_name := match transform_last_name with
        | some n => some n
        | none => new_transform_name
      generate_instances_for_node fuel nodes child_node_id child_id_array
        layer_id new_transform model_ptrs last_name hidden
    | .groupNode first_child num_children =>
      (List.range num_children).foldl
        (fun acc i =>
          acc ++ generate_instances_for_node fuel nodes
            (child_id_array.getD (first_child + i) 0) child_id_array
            layer_index transform model_ptrs transform_last_name
            transform_last_hidden)
        []
    | .shapeNode model_id =>
      match model_ptrs.getD model_id none with
      | some _ =>
        [{ name := match transform_last_name with
             | some n => if n ≠ [] then some n else none
             | none => none
           transform := transform
           model_index := model_id
           layer_index := layer_index
           hidden := transform_last_hidden }]
      | none => []
    | .invalid => []

/-- The node chain Transform(A) → Group → Transform(B) → Shape(m) laid out
as node ids 0..3; the group's single child id (2) is stored at index 1 of
the child-id pool, matching the reader's sentinel entry at index 0. -/
def chainNodes (A B : ogt_vox_transform) (lA lB : Nat) (m : Nat) :
    List _vox_scene_node_ :=
  [.transformNode [] A 1 lA false,
   .groupNode 1 1,
   .transformNode [] B 3 lB false,
   .shapeNode m]

/-- C3: flattening the chain Transform(A) → Group → Transform(B) →
Shape(m), starting from the identity world transform as
`ogt_vox_read_scene` does, emits exactly one instance whose world transform
is `_vox_transform_multiply B A` (each transform node composes
`new_world = local * incoming_world`, so composition is child-first). -/
theorem flatten_composes_child_first (A B : ogt_vox_transform)
    (lA lB m : Nat) (model_ptrs : List (Option ogt_vox_model))
    (mdl : ogt_vox_model) (hm : model_ptrs.getD m none = some mdl) :
    generate_instances_for_node 4 (chainNodes A B lA lB m) 0
        [4294967295, 2] 0 _vox_transform_identity model_ptrs none false =
      [{ name := none
         transform := _vox_transform_multiply B A
         model_index := m
         layer_index := lB
         hidden := false }] := by
  have step : generate_instances_for_node 4 (chainNodes A B lA lB m) 0
      [4294967295, 2] 0 _vox_transform_identity model_ptrs none false =
      (match model_ptrs.getD m none with
       | some _ =>
         [{ name := none
            transform := _vox_transform_multiply B
              (_vox_transform_multiply A _vox_transform_identity)
            model_index := m
            layer_index := lB
            hidden := false }]
       | none => ([] : List ogt_vox_instance)) := rfl
  rw [step, hm, _vox_transform_multiply_identity]

/-- Witness for `flatten_composes_child_first` at concrete transforms. -/
theorem flatten_composes_child_first_witness :
    ([some (ogt_vox_model.mk 1 1 1 1 [1])].getD 0 none =
        some (ogt_vox_model.mk 1 1 1 1 [1])) ∧
    generate_instances_for_node 4
        (chainNodes rot17 _vox_transform_identity 3 7 0) 0
        [4294967295, 2] 0 _vox_transform_identity
        [some (ogt_vox_model.mk 1 1 1 1 [1])] none false =
      [{ name := none
         transform := _vox_transform_multiply _vox_transform_identity rot17
         model_index := 0
         layer_index := 7
         hidden := false }] :=
  ⟨by decide,
    flatten_composes_child_first rot17 _vox_transform_identity 3 7 0
      [some (ogt_vox_model.mk 1 1 1 1 [1])]
      (ogt_vox_model.mk 1 1 1 1 [1]) (by decide)⟩

/-! ## Model hashing, equality and deduplication -/

/-- Source: `_vox_hash`: `hash = data[i] + hash * 65559` in `unsigned long`
arithmetic (64 bits on LP64 targets), truncated to `uint32_t` on return. -/
def _vox_hash (data : List Nat) : Nat :=
  (data.foldl (fun h b => (b + h * 65559) % 18446744073709551616) 0) %
    4294967296

/-- The voxel count `size_x * size_y * size_z` in `uint32_t` arithmetic. -/
def numVoxels (m : ogt_vox_model) : Nat :=
  m.size_x * m.size_y * m.size_z % 4294967296

/-- Source: `_vox_models_are_equal`: hash check, then voxel-count check (the
product of the dimensions, not the dimension triple), then a `memcmp` over
`num_voxels_lhs` bytes (modelled by comparing the prefixes of that
length). -/
def _vox_models_are_equal (lhs rhs : ogt_vox_model) : Bool :=
  if lhs.voxel_hash ≠ rhs.voxel_hash then false
  else if numVoxels lhs ≠ numVoxels rhs then false
  else lhs.voxel_data.take (numVoxels lhs) ==
    rhs.voxel_data.take (numVoxels lhs)

/-- The duplicate-model pass of `ogt_vox_read_scene`: a pair-wise scan in
which each later duplicate `j` of an earlier model `i` is freed (slot set
to `none`) and every instance with `model_index == j` is remapped to
`i`. -/
def dedupModelsPass (models : List (Option ogt_vox_model))
    (instances : List ogt_vox_instance) :
    List (Option ogt_vox_model) × List ogt_vox_instance :=
  (List.range models.length).foldl
    (fun acc i =>
      match acc.1.getD i none with
      | none => acc
      | some mi =>
        (List.range (models.length - (i + 1))).foldl
          (fun acc2 dj =>
            let j := i + 1 + dj
            match acc2.1.getD j none with
            | none => acc2
            | some mj =>
              if _vox_models_are_equal mi mj then
                (acc2.1.set j none,
                 acc2.2.map (fun inst =>
                   if inst.model_index = j then
                     { inst with model_index := i }
                   else inst))
              else acc2)
          acc)
    (models, instances)

/-- The NULL-model compaction of `ogt_vox_read_scene`: if any slot is
NULL, build a remap table (`4294967295` = `UINT32_MAX` for NULL slots),
compact the model array and remap every instance through the table
(instances still pointing at a NULL slot — which the source asserts cannot
happen — receive `UINT32_MAX`); otherwise leave everything unchanged. -/
def compactModels (models : List (Option ogt_vox_model))
    (instances : List ogt_vox_instance) :
    List ogt_vox_model × List ogt_vox_instance :=
  if models.any (fun m => m.isNone) then
    let pr := models.foldl
      (fun (acc : List ogt_vox_model × List Nat) om =>
        match om with
        | some m => (acc.1 ++ [m], acc.2 ++ [acc.1.length])
        | none => (acc.1, acc.2 ++ [4294967295]))
      ([], [])
    (pr.1,
     instances.map (fun inst =>
       { inst with model_index := pr.2.getD inst.model_index 4294967295 }))
  else
    (models.filterMap id, instances)

/-- A 2×1×1 model with voxels `[1, 2]`, hashed as the reader would. -/
def dupModelA : ogt_vox_model := ⟨2, 1, 1, _vox_hash [1, 2], [1, 2]⟩

/-- A 1×2×1 model with the same bytes — different dimension triple. -/
def dupModelB : ogt_vox_model := ⟨1, 2, 1, _vox_hash [1, 2], [1, 2]⟩

/-- C4 counterexample: two parsed models whose dimension triples differ
(2×1×1 vs 1×2×1) but whose voxel counts and bytes agree are considered
equal by `_vox_models_are_equal` and are merged by the deduplication pass,
so "merged only if identical (size_x, size_y, size_z)" fails. -/
theorem dedup_merges_models_with_different_dims :
    (dupModelA.size_x, dupModelA.size_y, dupModelA.size_z) ≠
      (dupModelB.size_x, dupModelB.size_y, dupModelB.size_z) ∧
    _vox_models_are_equal dupModelA dupModelB = true ∧
    dedupModelsPass [some dupModelA, some dupModelB]
        [⟨none, _vox_transform_identity, 1, 0, false⟩] =
      ([some dupModelA, none],
       [⟨none, _vox_transform_identity, 0, 0, false⟩]) := by
  decide

/-- Evaluating the deduplication pass on a two-model array: only the pair
(0, 1) is compared. -/
theorem dedupModelsPass_pair (m0 m1 : ogt_vox_model)
    (insts : List ogt_vox_instance) :
    dedupModelsPass [some m0, some m1] insts =
      if _vox_models_are_equal m0 m1 then
        ([some m0, none],
         insts.map (fun inst =>
           if inst.model_index = 1 then { inst with model_index := 0 }
           else inst))
      else ([some m0, some m1], insts) := by
  have e1 : dedupModelsPass [some m0, some m1] insts =
      (fun acc : List (Option ogt_vox_model) × List ogt_vox_instance =>
        match acc.1.getD 1 none with
        | none => acc
        | some _ => acc)
      (if _vox_models_are_equal m0 m1 then
         ([some m0, none],
          insts.map (fun inst =>
            if inst.model_index = 1 then { inst with model_index := 0 }
            else inst))
       else ([some m0, some m1], insts)) := rfl
  rw [e1]
  cases h : _vox_models_are_equal m0 m1 <;> rfl

/-- Evaluating the compaction on `[some m0, none]`. -/
theorem compactModels_pair_merged (m0 : ogt_vox_model)
    (insts : List ogt_vox_instance) :
    compactModels [some m0, none] insts =
      ([m0],
       insts.map (fun inst =>
         { inst with
             model_index :=
               [0, 4294967295].getD inst.model_index 4294967295 })) := rfl

/-- C4 (amended): two parsed models (with the reader's hash and grid-size
invariants) are merged exactly when their voxel *counts* and voxel bytes
agree — the dimension triples themselves are not compared.  When they are
merged, the later model is dropped, instances are remapped to the earlier
model, and after compaction exactly one model remains; otherwise both
models and all instances are untouched. -/
theorem dedup_merge_characterisation (m0 m1 : ogt_vox_model)
    (insts : List ogt_vox_instance)
    (hh0 : m0.voxel_hash = _vox_hash m0.voxel_data)
    (hh1 : m1.voxel_hash = _vox_hash m1.voxel_data)
    (hl0 : m0.voxel_data.length = numVoxels m0)
    (hl1 : m1.voxel_data.length = numVoxels m1)
    (hidx : ∀ inst ∈ insts, inst.model_index < 2) :
    (_vox_models_are_equal m0 m1 = true ↔
      (numVoxels m0 = numVoxels m1 ∧ m0.voxel_data = m1.voxel_data)) ∧
    (_vox_models_are_equal m0 m1 = true →
      dedupModelsPass [some m0, some m1] insts =
        ([some m0, none],
         insts.map (fun inst =>
           if inst.model_index = 1 then { inst with model_index := 0 }
           else inst)) ∧
      compactModels [some m0, none]
          (insts.map (fun inst =>
            if inst.model_index = 1 then { inst with model_index := 0 }
            else inst)) =
        ([m0], insts.map (fun inst => { inst with model_index := 0 }))) ∧
    (_vox_models_are_equal m0 m1 = false →
      dedupModelsPass [some m0, some m1] insts =
        ([some m0, some m1], insts) ∧
      compactModels [some m0, some m1] insts = ([m0, m1], insts)) := by
  refine ⟨?_, ?_, ?_⟩
  · constructor
    · intro h
      unfold _vox_models_are_equal at h
      by_cases hh : m0.voxel_hash ≠ m1.voxel_hash
      · rw [if_pos hh] at h; exact absurd h (by simp)
      · rw [if_neg hh] at h
        by_cases hn : numVoxels m0 ≠ numVoxels m1
        · rw [if_pos hn] at h; exact absurd h (by simp)
        · rw [if_neg hn] at h
          have hn' : numVoxels m0 = numVoxels m1 := not_ne_iff.mp hn
          have ht : m0.voxel_data.take (numVoxels m0) =
              m1.voxel_data.take (numVoxels m0) := eq_of_beq h
          refine ⟨hn', ?_⟩
          rw [← hl0, List.take_length] at ht
          have hlen : m0.voxel_data.length = m1.voxel_data.length := by
            rw [hl0, hn', ← hl1]
          rw [ht, hlen, List.take_length]
    · rintro ⟨hn, hd⟩
      unfold _vox_models_are_equal
      rw [if_neg (by simp [hh0, hh1, hd]), if_neg (by simp [hn]), hd, hn,
        ← hl1, List.take_length]
      exact beq_self_eq_true _
  · intro hEq
    constructor
    · rw [dedupModelsPass_pair, hEq]; rfl
    · rw [compactModels_pair_merged, List.map_map]
      refine congrArg _ ?_
      apply List.map_eq_map_iff.mpr
      intro inst hinst
      have hlt := hidx inst hinst
      by_cases h1 : inst.model_index = 1
      · simp [Function.comp, h1]
      · have h0 : inst.model_index = 0 := by omega
        simp [Function.comp, h1, h0]
  · intro hNe
    constructor
    · rw [dedupModelsPass_pair, hNe]; rfl
    · rfl

/-- Witness for `dedup_merge_characterisation` at concrete models. -/
theorem dedup_merge_characterisation_witness :
    (dupModelA.voxel_hash = _vox_hash dupModelA.voxel_data ∧
     dupModelB.voxel_hash = _vox_hash dupModelB.voxel_data ∧
     dupModelA.voxel_data.length = numVoxels dupModelA ∧
     dupModelB.voxel_data.length = numVoxels dupModelB ∧
     (∀ inst ∈ [ogt_vox_instance.mk none _vox_transform_identity 1 0 false],
       inst.model_index < 2)) ∧
    (_vox_models_are_equal dupModelA dupModelB = true ↔
      (numVoxels dupModelA = numVoxels dupModelB ∧
        dupModelA.voxel_data = dupModelB.voxel_data)) :=
  ⟨⟨by decide, by decide, by decide, by decide, by decide⟩,
    (dedup_merge_characterisation dupModelA dupModelB
      [ogt_vox_instance.mk none _vox_transform_identity 1 0 false]
      (by decide) (by decide) (by decide) (by decide) (by decide)).1⟩

/-! ## Palette index-map fix-up (`IMAP`) -/

/-- The inverse-map computation of the fix-up:
`for i in 0..255: index_map_inverse[index_map[i]] = i`.  The C array is
uninitialised; entries never written (possible only when `index_map` is
not surjective) are modelled as 0. -/
def indexMapInverse (index_map : List Nat) : List Nat :=
  (List.range 256).foldl (fun acc i => acc.set (index_map.getD i 0) i)
    (List.replicate 256 0)

/-- The palette index-map fix-up of `ogt_vox_read_scene`, applied when an
`IMAP` chunk was found: reorder the palette with
`palette[i] = old_palette[(index_map[i] + 255) & 0xFF]` and rewrite every
voxel byte `v` of every model to `(1 + index_map_inverse[v]) & 0xFF`
(`uint8_t` arithmetic; the source has no zero-voxel special case). -/
def applyIndexMap (index_map : List Nat) (palette : List ogt_vox_rgba)
    (model_ptrs : List (Option ogt_vox_model)) :
    List ogt_vox_rgba × List (Option ogt_vox_model) :=
  let inv := indexMapInverse index_map
  let new_palette :=
    (List.range 256).map
      (fun i => palette.getD ((index_map.getD i 0 + 255) % 256)
        (ogt_vox_rgba.mk 0 0 0 0))
  let new_models := model_ptrs.map (Option.map (fun m =>
    { m with voxel_data :=
        m.voxel_data.map (fun v => (1 + inv.getD v 0) % 256) }))
  (new_palette, new_models)

/-- A left fold of array writes `acc.set (f j) j` leaves untouched any
index that none of the writes targets. -/
theorem foldl_set_getD_of_not_written (f : Nat → Nat) (L : List Nat) :
    ∀ init : List Nat, ∀ p : Nat, (∀ j ∈ L, f j ≠ p) →
      (L.foldl (fun acc j => acc.set (f j) j) init).getD p 0 =
        init.getD p 0 := by
  induction L with
  | nil => intro init p _; rfl
  | cons a L ih =>
    intro init p h
    simp only [List.foldl_cons]
    rw [ih (init.set (f a) a) p (fun j hj => h j (List.mem_cons_of_mem a hj))]
    rw [List.getD_eq_getElem?_getD, List.getD_eq_getElem?_getD,
      List.getElem?_set_ne (h a (List.mem_cons_self a L))]

/-- A left fold of array writes stores the last write to each index: if
`i ∈ L`, no other entry of `L` writes to the index `f i`, and `f i` is in
bounds, the folded array holds `i` at index `f i`. -/
theorem foldl_set_getD_written (f : Nat → Nat) (L : List Nat) :
    ∀ init : List Nat, ∀ i : Nat, i ∈ L →
      (∀ j ∈ L, f j = f i → j = i) → f i < init.length →
      (L.foldl (fun acc j => acc.set (f j) j) init).getD (f i) 0 = i := by
  induction L with
  | nil => intro init i hmem; cases hmem
  | cons a L ih =>
    intro init i hmem hinj hlt
    simp only [List.foldl_cons]
    by_cases hiL : i ∈ L
    · exact ih (init.set (f a) a) i hiL
        (fun j hj hf => hinj j (List.mem_cons_of_mem a hj) hf)
        (by rw [List.length_set]; exact hlt)
    · have hia : a = i := by
        rcases List.mem_cons.mp hmem with h | h
        · exact h.symm
        · exact absurd h hiL
      subst hia
      rw [foldl_set_getD_of_not_written f L (init.set (f a) a) (f a)
        (fun j hj hfj => hiL ((hinj j (List.mem_cons_of_mem a hj) hfj) ▸ hj))]
      rw [List.getD_eq_getElem?_getD, List.getElem?_set_eq_of_lt a hlt]
      rfl

/-- Source: `indexMapInverse` inverts a duplicate-free byte map:
`index_map_inverse[index_map[i]] = i`. -/
theorem indexMapInverse_getD (im : List Nat) (hlen : im.length = 256)
    (hnd : im.Nodup) (hval : ∀ v ∈ im, v < 256) (i : Nat) (hi : i < 256) :
    (indexMapInverse im).getD (im.getD i 0) 0 = i := by
  unfold indexMapInverse
  refine foldl_set_getD_written (fun j => im.getD j 0) (List.range 256)
    (List.replicate 256 0) i (List.mem_range.mpr hi) ?_ ?_
  · intro j hj hfj
    have hjl : j < im.length := by rw [hlen]; exact List.mem_range.mp hj
    have hil : i < im.length := by rw [hlen]; exact hi
    have hfj2 : im.getD j 0 = im.getD i 0 := hfj
    rw [List.getD_eq_getElem im 0 hjl, List.getD_eq_getElem im 0 hil] at hfj2
    exact (List.Nodup.getElem_inj_iff hnd).mp hfj2
  · rw [List.length_replicate]
    have hil : i < im.length := by rw [hlen]; exact hi
    show im.getD i 0 < 256
    rw [List.getD_eq_getElem im 0 hil]
    exact hval _ (List.getElem_mem hil)

/-- C5 (amended): when an `IMAP` chunk is present the reader reorders the
palette with `new_palette[display] = old_palette[(imap[display]+255) & 255]`
and rewrites *every* voxel byte `v` — including 0 — of every model to
`(1 + inv[v]) mod 256`, where `inv` is the index-map inverse
(`inv[imap[i]] = i` whenever `imap` is duplicate-free over bytes).  Voxel
bytes equal to 0 are preserved exactly when `imap[255] = 0` (then
`inv[0] = 255` and `(1 + 255) mod 256 = 0`), which is not guaranteed for an
arbitrary permutation. -/
theorem imap_fixup_characterisation (im : List Nat)
    (pal : List ogt_vox_rgba) (mods : List (Option ogt_vox_model))
    (hlen : im.length = 256) (hnd : im.Nodup)
    (hval : ∀ v ∈ im, v < 256) :
    ((applyIndexMap im pal mods).1 =
      (List.range 256).map (fun i =>
        pal.getD ((im.getD i 0 + 255) % 256) (ogt_vox_rgba.mk 0 0 0 0))) ∧
    ((applyIndexMap im pal mods).2 =
      mods.map (Option.map (fun m =>
        { m with voxel_data := m.voxel_data.map (fun v => (1 + (indexMapInverse im).getD v 0) % 256) }))) ∧
    (∀ i : Nat, i < 256 →
      (indexMapInverse im).getD (im.getD i 0) 0 = i) ∧
    (im.getD 255 0 = 0 →
      (1 + (indexMapInverse im).getD 0 0) % 256 = 0) := by
  refine ⟨rfl, rfl, ?_, ?_⟩
  · intro i hi
    exact indexMapInverse_getD im hlen hnd hval i hi
  · intro h255
    have h := indexMapInverse_getD im hlen hnd hval 255 (by omega)
    rw [h255] at h
    rw [h]

/-- The index map `i ↦ (i + 1) mod 256` (in particular `imap[255] = 0`). -/
def cycleIndexMap : List Nat := (List.range 256).map (fun i => (i + 1) % 256)

/-- Witness for `imap_fixup_characterisation` at a concrete index map with
`imap[255] = 0`. -/
theorem imap_fixup_characterisation_witness :
    (cycleIndexMap.length = 256 ∧ cycleIndexMap.Nodup ∧
      (∀ v ∈ cycleIndexMap, v < 256)) ∧
    ((applyIndexMap cycleIndexMap [] []).1 =
      (List.range 256).map (fun i =>
        ([] : List ogt_vox_rgba).getD ((cycleIndexMap.getD i 0 + 255) % 256)
          (ogt_vox_rgba.mk 0 0 0 0))) ∧
    ((applyIndexMap cycleIndexMap [] []).2 = []) ∧
    (∀ i : Nat, i < 256 →
      (indexMapInverse cycleIndexMap).getD (cycleIndexMap.getD i 0) 0 = i) ∧
    (cycleIndexMap.getD 255 0 = 0 →
      (1 + (indexMapInverse cycleIndexMap).getD 0 0) % 256 = 0) := by
  have h := imap_fixup_characterisation cycleIndexMap [] []
    (by decide) (by decide) (by decide)
  exact ⟨⟨by decide, by decide, by decide⟩, h.1, h.2.1, h.2.2.1, h.2.2.2⟩


/-! ## The `.vox` file reader -/

/-- Byte values of a Lean string literal (for dictionary keys). -/
def strBytes (s : String) : List Nat := s.data.map Char.toNat

/-- Source: `k_default_vox_palette`: the 256 RGBA colors (1024 bytes, r g b a
order) used when no `RGBA` chunk is present. -/
def k_default_vox_palette : List Nat :=
  [
    255, 255, 255, 255, 255, 255, 204, 255, 255, 255, 153, 255, 255, 255, 102, 255,
    255, 255, 51, 255, 255, 255, 0, 255, 255, 204, 255, 255, 255, 204, 204, 255,
    255, 204, 153, 255, 255, 204, 102, 255, 255, 204, 51, 255, 255, 204, 0, 255,
    255, 153, 255, 255, 255, 153, 204, 255, 255, 153, 153, 255, 255, 153, 102, 255,
    255, 153, 51, 255, 255, 153, 0, 255, 255, 102, 255, 255, 255, 102, 204, 255,
    255, 102, 153, 255, 255, 102, 102, 255, 255, 102, 51, 255, 255, 102, 0, 255,
    255, 51, 255, 255, 255, 51, 204, 255, 255, 51, 153, 255, 255, 51, 102, 255,
    255, 51, 51, 255, 255, 51, 0, 255, 255, 0, 255, 255, 255, 0, 204, 255,
    255, 0, 153, 255, 255, 0, 102, 255, 255, 0, 51, 255, 255, 0, 0, 255,
    204, 255, 255, 255, 204, 255, 204, 255, 204, 255, 153, 255, 204, 255, 102, 255,
    204, 255, 51, 255, 204, 255, 0, 255, 204, 204, 255, 255, 204, 204, 204, 255,
    204, 204, 153, 255, 204, 204, 102, 255, 204, 204, 51, 255, 204, 204, 0, 255,
    204, 153, 255, 255, 204, 153, 204, 255, 204, 153, 153, 255, 204, 153, 102, 255,
    204, 153, 51, 255, 204, 153, 0, 255, 204, 102, 255, 255, 204, 102, 204, 255,
    204, 102, 153, 255, 204, 102, 102, 255, 204, 102, 51, 255, 204, 102, 0, 255,
    204, 51, 255, 255, 204, 51, 204, 255, 204, 51, 153, 255, 204, 51, 102, 255,
    204, 51, 51, 255, 204, 51, 0, 255, 204, 0, 255, 255, 204, 0, 204, 255,
    204, 0, 153, 255, 204, 0, 102, 255, 204, 0, 51, 255, 204, 0, 0, 255,
    153, 255, 255, 255, 153, 255, 204, 255, 153, 255, 153, 255, 153, 255, 102, 255,
    153, 255, 51, 255, 153, 255, 0, 255, 153, 204, 255, 255, 153, 204, 204, 255,
    153, 204, 153, 255, 153, 204, 102, 255, 153, 204, 51, 255, 153, 204, 0, 255,
    153, 153, 255, 255, 153, 153, 204, 255, 153, 153, 153, 255, 153, 153, 102, 255,
    153, 153, 51, 255, 153, 153, 0, 255, 153, 102, 255, 255, 153, 102, 204, 255,
    153, 102, 153, 255, 153, 102, 102, 255, 153, 102, 51, 255, 153, 102, 0, 255,
    153, 51, 255, 255, 153, 51, 204, 255, 153, 51, 153, 255, 153, 51, 102, 255,
    153, 51, 51, 255, 153, 51, 0, 255, 153, 0, 255, 255, 153, 0, 204, 255,
    153, 0, 153, 255, 153, 0, 102, 255, 153, 0, 51, 255, 153, 0, 0, 255,
    102, 255, 255, 255, 102, 255, 204, 255, 102, 255, 153, 255, 102, 255, 102, 255,
    102, 255, 51, 255, 102, 255, 0, 255, 102, 204, 255, 255, 102, 204, 204, 255,
    102, 204, 153, 255, 102, 204, 102, 255, 102, 204, 51, 255, 102, 204, 0, 255,
    102, 153, 255, 255, 102, 153, 204, 255, 102, 153, 153, 255, 102, 153, 102, 255,
    102, 153, 51, 255, 102, 153, 0, 255, 102, 102, 255, 255, 102, 102, 204, 255,
    102, 102, 153, 255, 102, 102, 102, 255, 102, 102, 51, 255, 102, 102, 0, 255,
    102, 51, 255, 255, 102, 51, 204, 255, 102, 51, 153, 255, 102, 51, 102, 255,
    102, 51, 51, 255, 102, 51, 0, 255, 102, 0, 255, 255, 102, 0, 204, 255,
    102, 0, 153, 255, 102, 0, 102, 255, 102, 0, 51, 255, 102, 0, 0, 255,
    51, 255, 255, 255, 51, 255, 204, 255, 51, 255, 153, 255, 51, 255, 102, 255,
    51, 255, 51, 255, 51, 255, 0, 255, 51, 204, 255, 255, 51, 204, 204, 255,
    51, 204, 153, 255, 51, 204, 102, 255, 51, 204, 51, 255, 51, 204, 0, 255,
    51, 153, 255, 255, 51, 153, 204, 255, 51, 153, 153, 255, 51, 153, 102, 255,
    51, 153, 51, 255, 51, 153, 0, 255, 51, 102, 255, 255, 51, 102, 204, 255,
    51, 102, 153, 255, 51, 102, 102, 255, 51, 102, 51, 255, 51, 102, 0, 255,
    51, 51, 255, 255, 51, 51, 204, 255, 51, 51, 153, 255, 51, 51, 102, 255,
    51, 51, 51, 255, 51, 51, 0, 255, 51, 0, 255, 255, 51, 0, 204, 255,
    51, 0, 153, 255, 51, 0, 102, 255, 51, 0, 51, 255, 51, 0, 0, 255,
    0, 255, 255, 255, 0, 255, 204, 255, 0, 255, 153, 255, 0, 255, 102, 255,
    0, 255, 51, 255, 0, 255, 0, 255, 0, 204, 255, 255, 0, 204, 204, 255,
    0, 204, 153, 255, 0, 204, 102, 255, 0, 204, 51, 255, 0, 204, 0, 255,
    0, 153, 255, 255, 0, 153, 204, 255, 0, 153, 153, 255, 0, 153, 102, 255,
    0, 153, 51, 255, 0, 153, 0, 255, 0, 102, 255, 255, 0, 102, 204, 255,
    0, 102, 153, 255, 0, 102, 102, 255, 0, 102, 51, 255, 0, 102, 0, 255,
    0, 51, 255, 255, 0, 51, 204, 255, 0, 51, 153, 255, 0, 51, 102, 255,
    0, 51, 51, 255, 0, 51, 0, 255, 0, 0, 255, 255, 0, 0, 204, 255,
    0, 0, 153, 255, 0, 0, 102, 255, 0, 0, 51, 255, 238, 0, 0, 255,
    221, 0, 0, 255, 187, 0, 0, 255, 170, 0, 0, 255, 136, 0, 0, 255,
    119, 0, 0, 255, 85, 0, 0, 255, 68, 0, 0, 255, 34, 0, 0, 255,
    17, 0, 0, 255, 0, 238, 0, 255, 0, 221, 0, 255, 0, 187, 0, 255,
    0, 170, 0, 255, 0, 136, 0, 255, 0, 119, 0, 255, 0, 85, 0, 255,
    0, 68, 0, 255, 0, 34, 0, 255, 0, 17, 0, 255, 0, 0, 238, 255,
    0, 0, 221, 255, 0, 0, 187, 255, 0, 0, 170, 255, 0, 0, 136, 255,
    0, 0, 119, 255, 0, 0, 85, 255, 0, 0, 68, 255, 0, 0, 34, 255,
    0, 0, 17, 255, 238, 238, 238, 255, 221, 221, 221, 255, 187, 187, 187, 255,
    170, 170, 170, 255, 136, 136, 136, 255, 119, 119, 119, 255, 85, 85, 85, 255,
    68, 68, 68, 255, 34, 34, 34, 255, 17, 17, 17, 255, 0, 0, 0, 255
  ]

/-- The default palette as 256 `ogt_vox_rgba` values (the reader memcpys
`k_default_vox_palette` into the scene palette before parsing). -/
def defaultPaletteRGBA : List ogt_vox_rgba :=
  (List.range 256).map (fun i =>
    ogt_vox_rgba.mk (k_default_vox_palette.getD (4 * i) 0)
      (k_default_vox_palette.getD (4 * i + 1) 0)
      (k_default_vox_palette.getD (4 * i + 2) 0)
      (k_default_vox_palette.getD (4 * i + 3) 0))

/-- Source: `_vox_file`: a read cursor over an in-memory byte buffer. -/
structure _vox_file where
  buffer : List Nat
  offset : Nat

/-- Source: `_vox_file_read` of a `uint32_t`: the offset advances by 4 whether or
not 4 bytes remain (the C memcpy copies what is available and the call
sites ignore the success flag; missing bytes are modelled as 0, see the
file comment). -/
def fileReadU32 (fp : _vox_file) : Nat × _vox_file :=
  (u32At fp.buffer fp.offset, { fp with offset := fp.offset + 4 })

/-- Source: `_vox_file_read` of `n` raw bytes (missing bytes modelled as 0). -/
def fileReadBytes (fp : _vox_file) (n : Nat) : List Nat × _vox_file :=
  ((List.range n).map (fun i => fp.buffer.getD (fp.offset + i) 0),
   { fp with offset := fp.offset + n })

/-- Source: `_vox_file_seek_forwards`. -/
def fileSeekForwards (fp : _vox_file) (n : Nat) : _vox_file :=
  { fp with offset := fp.offset + n }

/-- Source: `_vox_file_eof`. -/
def fileEof (fp : _vox_file) : Bool := fp.offset ≥ fp.buffer.length

/-- Source: `k_vox_max_dict_buffer_size`. -/
def k_vox_max_dict_buffer_size : Nat := 4096

/-- The pair loop of `_vox_file_read_dict`.  On a buffer overflow the C
function returns `false` and stops reading; every call site ignores the
result, leaving the cursor mid-dictionary. -/
def readDictLoop : Nat -> _vox_file -> Nat ->
    List (List Nat × List Nat) -> List (List Nat × List Nat) × _vox_file
  | 0, fp, _, acc => (acc.reverse, fp)
  | n + 1, fp, mem_used, acc =>
    let r1 := fileReadU32 fp
    let key_string_size := r1.1
    if mem_used + key_string_size > k_vox_max_dict_buffer_size then
      (acc.reverse, r1.2)
    else
      let r2 := fileReadBytes r1.2 key_string_size
      let mem_used2 := mem_used + key_string_size + 1
      let r3 := fileReadU32 r2.2
      let value_string_size := r3.1
      if mem_used2 + value_string_size > k_vox_max_dict_buffer_size then
        (acc.reverse, r3.2)
      else
        let r4 := fileReadBytes r3.2 value_string_size
        readDictLoop n r4.2 (mem_used2 + value_string_size + 1)
          ((r2.1, r4.1) :: acc)

/-- Source: `_vox_file_read_dict` (the C code asserts at most 256 pairs; beyond
256 it would overflow its stack arrays, so defined behaviour needs the
bound to hold). -/
def _vox_file_read_dict (fp : _vox_file) :
    List (List Nat × List Nat) × _vox_file :=
  let r := fileReadU32 fp
  readDictLoop r.1 r.2 0 []

/-- ASCII lower-casing of one byte (for `_vox_strcasecmp`). -/
def asciiLower (c : Nat) : Nat := if 65 ≤ c ∧ c ≤ 90 then c + 32 else c

/-- Source: `_vox_dict_get_value_as_string`: the first key matching
case-insensitively, else the default. -/
def dictGetValue (dict : List (List Nat × List Nat)) (key : List Nat)
    (dflt : Option (List Nat)) : Option (List Nat) :=
  match dict.find? (fun kv => kv.1.map asciiLower == key.map asciiLower) with
  | some kv => some kv.2
  | none => dflt

/-- Longest decimal digit run at the head of a byte string. -/
def parseDigits : List Nat -> Nat -> Nat
  | [], acc => acc
  | c :: rest, acc =>
    if 48 ≤ c ∧ c ≤ 57 then parseDigits rest (acc * 10 + (c - 48)) else acc

/-- Source: `atoi`, modelled for optional-sign decimal byte strings (the only
shapes the `.vox` format carries in `_r` / `_t` values). -/
def atoiBytes (s : List Nat) : Int :=
  match s with
  | 45 :: rest => -(parseDigits rest 0 : Int)
  | 43 :: rest => (parseDigits rest 0 : Int)
  | _ => (parseDigits s 0 : Int)

/-- Split a byte string at spaces (byte 32), dropping empty runs. -/
def splitSpaces (s : List Nat) : List (List Nat) :=
  (s.foldr
    (fun c acc =>
      if c = 32 then [] :: acc else (c :: acc.headD []) :: acc.tail)
    [[]]).filter (fun t => t ≠ [])

/-- The `"%i %i %i"` translation scan of
`_vox_make_transform_from_dict_strings`, modelled for space-separated
decimal integers (the shapes a writer produces); missing fields stay 0. -/
def parseTranslation (s : List Nat) : Int × Int × Int :=
  let toks := splitSpaces s
  (atoiBytes (toks.getD 0 []), atoiBytes (toks.getD 1 []),
   atoiBytes (toks.getD 2 []))

/-- Source: `_vox_make_transform_from_dict_strings`: the identity, with the
rotation part overwritten when `_r` is present and the translation part
overwritten when `_t` is present.  An invalid rotation code is an
out-of-bounds table read (plus a debug assert) in C; the model keeps the
identity rotation there. -/
def _vox_make_transform_from_dict_strings
    (rotation_string translation_string : Option (List Nat)) :
    ogt_vox_transform :=
  let t1 := match rotation_string with
    | none => _vox_transform_identity
    | some s =>
      match _vox_unpack_rotation ((atoiBytes s % 4294967296).toNat) with
      | some t => t
      | none => _vox_transform_identity
  match translation_string with
  | none => t1
  | some s =>
    let tr := parseTranslation s
    { t1 with m30 := tr.1, m31 := tr.2.1, m32 := tr.2.2 }

/-- The reader's chunk-loop state (the instance list and the instance /
layer names are produced from it after the loop). -/
structure ParseState where
  model_ptrs : List (Option ogt_vox_model)
  nodes : List _vox_scene_node_
  layers : List ogt_vox_layer
  child_ids : List Nat
  palette : List ogt_vox_rgba
  size_x : Nat
  size_y : Nat
  size_z : Nat
  index_map : List Nat
  found_index_map_chunk : Bool

/-- The state before the chunk loop: default palette, the `-1` sentinel in
the child-id pool, sizes 0 (`index_map` is uninitialised in C until an
`IMAP` chunk arrives; modelled as zeros). -/
def initialParseState : ParseState where
  model_ptrs := []
  nodes := []
  layers := []
  child_ids := [4294967295]
  palette := defaultPaletteRGBA
  size_x := 0
  size_y := 0
  size_z := 0
  index_map := List.replicate 256 0
  found_index_map_chunk := false

/-- Source: `grow_to_fit_index`: grow a list to make `index` valid, filling new
slots with `dflt` (the C realloc zero-fills, and `dflt` is always the
corresponding zero value). -/
def growToFit {a : Type} (l : List a) (index : Nat) (dflt : a) : List a :=
  if index < l.length then l
  else l ++ List.replicate (index + 1 - l.length) dflt

/-- The XYZI voxel fill: a zeroed dense grid of `size_x*size_y*size_z`
bytes (`uint32_t` product), each packed `(x,y,z,color)` quadruple written
at `x + y*size_x + z*size_x*size_y` (an out-of-range coordinate is a debug
assert and an out-of-bounds write in C; `List.set` makes it a no-op). -/
def fillVoxels (buffer : List Nat) (off : Nat) (num : Nat)
    (sx sy sz : Nat) : List Nat :=
  (List.range num).foldl
    (fun grid i =>
      let x := buffer.getD (off + 4 * i) 0
      let y := buffer.getD (off + 4 * i + 1) 0
      let z := buffer.getD (off + 4 * i + 2) 0
      let ci := buffer.getD (off + 4 * i + 3) 0
      grid.set ((x + y * sx + z * sx * sy) % 4294967296) ci)
    (List.replicate (sx * sy * sz % 4294967296) 0)

/-- The `RGBA` chunk read: 1024 bytes replace the palette; on a short read
the C memcpy keeps the current palette bytes beyond the available data. -/
def readPaletteChunk (fp : _vox_file) (old : List ogt_vox_rgba) :
    List ogt_vox_rgba × _vox_file :=
  let get := fun (k : Nat) (oldv : Nat) =>
    if fp.offset + k < fp.buffer.length then fp.buffer.getD (fp.offset + k) 0
    else oldv
  ((List.range 256).map (fun i =>
     let o := old.getD i (ogt_vox_rgba.mk 0 0 0 0)
     ogt_vox_rgba.mk (get (4 * i) o.r) (get (4 * i + 1) o.g)
       (get (4 * i + 2) o.b) (get (4 * i + 3) o.a)),
   { fp with offset := fp.offset + 1024 })

/-- The `IMAP` chunk read (256 bytes; short reads keep old bytes). -/
def readIndexMapChunk (fp : _vox_file) (old : List Nat) :
    List Nat × _vox_file :=
  ((List.range 256).map (fun i =>
     if fp.offset + i < fp.buffer.length then fp.buffer.getD (fp.offset + i) 0
     else old.getD i 0),
   { fp with offset := fp.offset + 256 })

/-- Dispatch of one chunk body (the cursor sits just past the 12-byte
chunk header).  `MAIN` has no payload; `MATL`, `MATT` and unknown ids skip
`chunk_size` bytes.  The reserved fields of `nTRN` (`UINT32_MAX`) and
`LAYR` (`-1`), the `num_frames == 1` and `num_models == 1` fields, and the
dictionary result flags are checked only by debug asserts in the source
and are read and ignored here. -/
def handleChunk (chunk_id chunk_size : Nat) (fp : _vox_file)
    (st : ParseState) : _vox_file × ParseState :=
  if chunk_id = CHUNK_ID_MAIN then (fp, st)
  else if chunk_id = CHUNK_ID_SIZE then
    let r1 := fileReadU32 fp
    let r2 := fileReadU32 r1.2
    let r3 := fileReadU32 r2.2
    (r3.2, { st with size_x := r1.1, size_y := r2.1, size_z := r3.1 })
  else if chunk_id = CHUNK_ID_XYZI then
    let r1 := fileReadU32 fp
    let num := r1.1
    if num ≠ 0 then
      let grid := fillVoxels r1.2.buffer r1.2.offset num
        st.size_x st.size_y st.size_z
      let model : ogt_vox_model :=
        { size_x := st.size_x, size_y := st.size_y, size_z := st.size_z
          voxel_hash := _vox_hash grid
          voxel_data := grid }
      (fileSeekForwards r1.2 (num * 4),
       { st with model_ptrs := st.model_ptrs ++ [some model] })
    else
      (r1.2, { st with model_ptrs := st.model_ptrs ++ [none] })
  else if chunk_id = CHUNK_ID_RGBA then
    let r := readPaletteChunk fp st.palette
    (r.2, { st with palette := r.1 })
  else if chunk_id = CHUNK_ID_nTRN then
    let r1 := fileReadU32 fp
    let node_id := r1.1
    let rd := _vox_file_read_dict r1.2
    let node_name := (dictGetValue rd.1 (strBytes "_name") none).getD []
    let hidden :=
      ((dictGetValue rd.1 (strBytes "_hidden")
        (some (strBytes "0"))).getD []).headD 48 = 49
    let r2 := fileReadU32 rd.2
    let r3 := fileReadU32 r2.2
    let r4 := fileReadU32 r3.2
    let r5 := fileReadU32 r4.2
    let rf := _vox_file_read_dict r5.2
    let frame_transform := _vox_make_transform_from_dict_strings
      (dictGetValue rf.1 (strBytes "_r") none)
      (dictGetValue rf.1 (strBytes "_t") none)
    let nodes := growToFit st.nodes node_id _vox_scene_node_.invalid
    let nodes2 := nodes.set node_id
      (_vox_scene_node_.transformNode node_name frame_transform
        r2.1 r4.1 hidden)
    (rf.2, { st with nodes := nodes2 })
  else if chunk_id = CHUNK_ID_nGRP then
    let r1 := fileReadU32 fp
    let node_id := r1.1
    let rd := _vox_file_read_dict r1.2
    let nodes0 := (growToFit st.nodes node_id _vox_scene_node_.invalid).set
      node_id (_vox_scene_node_.groupNode 0 0)
    let r2 := fileReadU32 rd.2
    let num_child_nodes := r2.1
    if num_child_nodes ≠ 0 then
      let prior_size := st.child_ids.length
      let new_ids := (List.range num_child_nodes).map
        (fun i => u32At r2.2.buffer (r2.2.offset + 4 * i))
      let nodes1 := nodes0.set node_id
        (_vox_scene_node_.groupNode prior_size num_child_nodes)
      (fileSeekForwards r2.2 (4 * num_child_nodes),
       { st with nodes := nodes1, child_ids := st.child_ids ++ new_ids })
    else (r2.2, { st with nodes := nodes0 })
  else if chunk_id = CHUNK_ID_nSHP then
    let r1 := fileReadU32 fp
    let node_id := r1.1
    let rd := _vox_file_read_dict r1.2
    let r2 := fileReadU32 rd.2
    let r3 := fileReadU32 r2.2
    let rm := _vox_file_read_dict r3.2
    let nodes := growToFit st.nodes node_id _vox_scene_node_.invalid
    let nodes2 := nodes.set node_id (_vox_scene_node_.shapeNode r3.1)
    (rm.2, { st with nodes := nodes2 })
  else if chunk_id = CHUNK_ID_IMAP then
    let r := readIndexMapChunk fp st.index_map
    (r.2, { st with index_map := r.1, found_index_map_chunk := true })
  else if chunk_id = CHUNK_ID_LAYR then
    let r1 := fileReadU32 fp
    let layer_id := r1.1
    let rd := _vox_file_read_dict r1.2
    let r2 := fileReadU32 rd.2
    let layers0 := growToFit st.layers layer_id (ogt_vox_layer.mk none false)
    let name := dictGetValue rd.1 (strBytes "_name") none
    let hidden :=
      ((dictGetValue rd.1 (strBytes "_hidden")
        (some (strBytes "0"))).getD []).headD 48 = 49
    (r2.2,
     { st with layers := layers0.set layer_id (ogt_vox_layer.mk name hidden) })
  else
    (fileSeekForwards fp chunk_size, st)

/-- The chunk loop of `ogt_vox_read_scene`.  Each iteration advances the
cursor by at least the 12 header bytes, so a budget of
`buffer.length + 1` iterations is never exhausted. -/
def parseChunks : Nat -> _vox_file -> ParseState -> ParseState
  | 0, _, st => st
  | fuel + 1, fp, st =>
    if fileEof fp then st
    else
      let r1 := fileReadU32 fp
      let r2 := fileReadU32 r1.2
      let r3 := fileReadU32 r2.2
      let h := handleChunk r1.1 r2.1 r3.2 st
      parseChunks fuel h.1 h.2

/-- The palette rotation at the end of `ogt_vox_read_scene`: color `i`
takes the file's color `i − 1`, color 0 takes the last color with its
alpha forced to 0. -/
def rotateScenePalette (palette : List ogt_vox_rgba) : List ogt_vox_rgba :=
  ({ palette.getD 255 (ogt_vox_rgba.mk 0 0 0 0) with a := 0 }) ::
    palette.take 255

/-- Insertion of one instance into a list sorted by `model_index`. -/
def insertByModelIndex (inst : ogt_vox_instance) :
    List ogt_vox_instance -> List ogt_vox_instance
  | [] => [inst]
  | x :: xs =>
    if inst.model_index < x.model_index then inst :: x :: xs
    else x :: insertByModelIndex inst xs

/-- The final instance ordering.  The source uses `qsort` with
`_vox_ordered_compare_instance`, which compares solely by `model_index`
and leaves the relative order of equal keys unspecified; insertion sort is
one deterministic refinement of that contract. -/
def sortInstancesByModelIndex (l : List ogt_vox_instance) :
    List ogt_vox_instance :=
  l.foldr insertByModelIndex []

/-- Everything `ogt_vox_read_scene` does after the chunk loop, in source
order: instance generation from the node graph (or the single-model
fallback for old files), the default layer, the `IMAP` fix-up, the palette
rotation, model deduplication, NULL-model compaction and the final
instance sort. -/
def assembleScene (st : ParseState) : ogt_vox_scene :=
  let instances :=
    if st.nodes.length ≠ 0 then
      generate_instances_for_node (st.nodes.length + 1) st.nodes 0
        st.child_ids 0 _vox_transform_identity st.model_ptrs none false
    else if st.model_ptrs.length = 1 then
      [{ name := none, transform := _vox_transform_identity,
         model_index := 0, layer_index := 0, hidden := false }]
    else []
  let li :=
    if st.layers.length = 0 then
      ([ogt_vox_layer.mk none false],
       instances.map (fun inst => { inst with layer_index := 0 }))
    else (st.layers, instances)
  let pm :=
    if st.found_index_map_chunk then
      applyIndexMap st.index_map st.palette st.model_ptrs
    else (st.palette, st.model_ptrs)
  let palette := rotateScenePalette pm.1
  let d := dedupModelsPass pm.2 li.2
  let c := compactModels d.1 d.2
  { models := c.1
    instances := sortInstancesByModelIndex c.2
    layers := li.1
    palette := palette }

/-- Source: `ogt_vox_read_scene`.  Returns `none` exactly when the 8-byte header
check fails: the magic must be `V O X space` and the version must be 150
(a buffer shorter than 8 bytes would make the C code compare partially
uninitialised locals, modelled as failure; C can additionally return NULL
on allocation failure, which the model ignores). -/
def ogt_vox_read_scene (buffer : List Nat) : Option ogt_vox_scene :=
  if buffer.length < 8 then none
  else if u32At buffer 0 ≠ CHUNK_ID_VOX_ ∨ u32At buffer 4 ≠ 150 then none
  else
    some (assembleScene
      (parseChunks (buffer.length + 1) ⟨buffer, 8⟩ initialParseState))

/-! ## Concrete reader inputs -/

/-- Source: `VOX ` magic, version 150, a `SIZE(1,1,1)` chunk and an `XYZI` chunk
declaring zero voxels (the reader pushes a NULL model placeholder). -/
def c1Input : List Nat :=
  u32le CHUNK_ID_VOX_ ++ u32le 150 ++
  u32le CHUNK_ID_SIZE ++ u32le 12 ++ u32le 0 ++
    u32le 1 ++ u32le 1 ++ u32le 1 ++
  u32le CHUNK_ID_XYZI ++ u32le 4 ++ u32le 0 ++ u32le 0

/-- C1 (evaluation at the failing input): on a file whose only model is
empty (an `XYZI` chunk with zero voxels) and which has no scene graph, the
reader synthesizes an instance for model 0, compacts the NULL model away,
and returns a scene with `num_models = 0` whose single instance has
`model_index = UINT32_MAX` — violating `model_index < num_models` (and, in
debug builds, the source's own assert
`new_model_index != UINT32_MAX`). -/
theorem reader_emits_dangling_model_index :
    (ogt_vox_read_scene c1Input).map
        (fun s => (s.models.length, s.instances.map (fun i => i.model_index)))
      = some (0, [4294967295]) := by
  decide

/-- An 8-byte header with correct magic and version 200. -/
def version200Header : List Nat := u32le CHUNK_ID_VOX_ ++ u32le 200

/-- An 8-byte header with correct magic and version 150 (a valid file with
no chunks). -/
def minimal150Header : List Nat := u32le CHUNK_ID_VOX_ ++ u32le 150

/-- C6 counterexample: a buffer with the correct `V O X space` magic and
version 200 is rejected (`ogt_vox_read_scene` requires version 150
exactly; the claim says 200 is accepted). -/
theorem reader_rejects_version_200 :
    u32At version200Header 0 = CHUNK_ID_VOX_ ∧
    u32At version200Header 4 = 200 ∧
    ogt_vox_read_scene version200Header = none := by
  decide

/-- C6 (amended): the reader accepts exactly version 150: any buffer whose
version field differs from 150 yields no scene, and a correct magic with
version 150 passes header validation (shown on the minimal chunk-free
file). -/
theorem reader_accepts_exactly_version_150 :
    (∀ bs : List Nat, 8 ≤ bs.length → u32At bs 4 ≠ 150 →
      ogt_vox_read_scene bs = none) ∧
    (ogt_vox_read_scene minimal150Header).isSome = true := by
  constructor
  · intro bs h hv
    have h1 : ¬ bs.length < 8 := by omega
    unfold ogt_vox_read_scene
    rw [if_neg h1, if_pos (Or.inr hv)]
  · decide

/-- Witness for `reader_accepts_exactly_version_150` at the version-200
header. -/
theorem reader_accepts_exactly_version_150_witness :
    ogt_vox_read_scene version200Header = none :=
  reader_accepts_exactly_version_150.1 version200Header (by decide)
    (by decide)

/-- A file whose only chunk is a `LAYR` whose reserved trailing field is 0
instead of the required −1 (`0xFFFFFFFF`). -/
def layrBadReservedInput : List Nat :=
  u32le CHUNK_ID_VOX_ ++ u32le 150 ++
  u32le CHUNK_ID_LAYR ++ u32le 12 ++ u32le 0 ++
  u32le 0 ++ u32le 0 ++ u32le 0

/-- A file whose only chunk is an `nTRN` whose node dictionary declares a
5000-byte key, exceeding the 4096-byte dictionary limit. -/
def ntrnOversizeDictInput : List Nat :=
  u32le CHUNK_ID_VOX_ ++ u32le 150 ++
  u32le CHUNK_ID_nTRN ++ u32le 24 ++ u32le 0 ++
  u32le 7 ++ u32le 1 ++ u32le 5000

/-- C7 counterexample: a reserved-field violation (the `LAYR` reserved
field is 0, not −1) does *not* make the reader return no scene — the field
is only checked by a debug assert, and release builds return a scene. -/
theorem reader_tolerates_reserved_violation :
    u32At layrBadReservedInput 28 = 0 ∧ (0 : Nat) ≠ 4294967295 ∧
    (ogt_vox_read_scene layrBadReservedInput).isSome = true := by
  decide

/-- C7 (amended): the reader returns no scene exactly for header failures
(bad magic or a version other than 150; C additionally fails on
allocation failure).  Reserved-field violations and over-limit
dictionaries are checked only by debug asserts: release builds parse on
and return a scene, shown on the `LAYR` reserved-field violation and on an
`nTRN` whose dictionary exceeds the 4 KiB limit. -/
theorem reader_failure_modes :
    (∀ bs : List Nat, 8 ≤ bs.length →
      (u32At bs 0 ≠ CHUNK_ID_VOX_ ∨ u32At bs 4 ≠ 150) →
      ogt_vox_read_scene bs = none) ∧
    (u32At ntrnOversizeDictInput 28 = 5000 ∧ 5000 > 4096 ∧
      (ogt_vox_read_scene ntrnOversizeDictInput).isSome = true) ∧
    (ogt_vox_read_scene layrBadReservedInput).isSome = true := by
  refine ⟨?_, by decide, by decide⟩
  intro bs h hv
  have h1 : ¬ bs.length < 8 := by omega
  unfold ogt_vox_read_scene
  rw [if_neg h1, if_pos hv]

/-- Witness for `reader_failure_modes` at a concrete bad-magic buffer. -/
theorem reader_failure_modes_witness :
    ogt_vox_read_scene [0, 0, 0, 0, 0, 0, 0, 0] = none :=
  reader_failure_modes.1 [0, 0, 0, 0, 0, 0, 0, 0] (by decide)
    (Or.inl (by decide))

/-- A file with a 1×1×1 model whose single cell holds voxel byte 0 (an
empty voxel) and an identity `IMAP` chunk. -/
def imapZeroVoxelInput : List Nat :=
  u32le CHUNK_ID_VOX_ ++ u32le 150 ++
  u32le CHUNK_ID_SIZE ++ u32le 12 ++ u32le 0 ++
    u32le 1 ++ u32le 1 ++ u32le 1 ++
  u32le CHUNK_ID_XYZI ++ u32le 8 ++ u32le 0 ++ u32le 1 ++ [0, 0, 0, 0] ++
  u32le CHUNK_ID_IMAP ++ u32le 256 ++ u32le 0 ++ List.range 256

/-- C5 counterexample: with the identity index map (`imap[i] = i`, a
permutation with `inv[0] = 0`), the fix-up rewrites the empty voxel byte 0
to `1 + inv[0] = 1` — voxel bytes equal to 0 are *not* left unchanged. -/
theorem imap_rewrites_zero_voxels :
    imapZeroVoxelInput.getD 51 0 = 0 ∧
    (ogt_vox_read_scene imapZeroVoxelInput).map
        (fun s => s.models.map (fun m => m.voxel_data)) = some [[1]] := by
  decide

/-! ## The `.vox` file writer -/

/-- Decimal byte string of a natural (`sprintf "%u"`). -/
def natToDecBytes (n : Nat) : List Nat := (Nat.toDigits 10 n).map Char.toNat

/-- Decimal byte string of an integer (`sprintf "%i"`; the source first
truncates the float to `int32_t`, which on the in-range integral values of
the model is the identity). -/
def intToDecBytes (i : Int) : List Nat :=
  if i < 0 then 45 :: natToDecBytes i.natAbs else natToDecBytes i.toNat

/-- Source: `_vox_file_write_dict_key_value`: nothing is written when the value
pointer is NULL. -/
def _vox_file_write_dict_key_value (key : List Nat)
    (value : Option (List Nat)) : List Nat :=
  match value with
  | none => []
  | some v => u32le key.length ++ key ++ u32le v.length ++ v

/-- Source: `_vox_dict_key_value_size`. -/
def _vox_dict_key_value_size (key : List Nat)
    (value : Option (List Nat)) : Nat :=
  match value with
  | none => 0
  | some v => 4 + key.length + 4 + v.length

/-- Source: `_vox_file_write_chunk_nTRN`.  For a non-NULL transform the source
unconditionally materialises both the translation string (`"%i %i %i"` of
the translation column) and the rotation string (`"%u"` of the packed
rotation byte), so both `_t` and `_r` are always present in the frame
dictionary of such chunks; only the NULL-transform (root) chunk omits
them. -/
def _vox_file_write_chunk_nTRN (node_id child_node_id : Nat)
    (name : Option (List Nat)) (hidden : Bool)
    (transform : Option ogt_vox_transform) (layer_id : Nat) : List Nat :=
  let hidden_string : Option (List Nat) := if hidden then some [49] else none
  let t_string : Option (List Nat) := transform.map (fun t =>
    intToDecBytes t.m30 ++ [32] ++ intToDecBytes t.m31 ++ [32] ++
      intToDecBytes t.m32)
  let r_string : Option (List Nat) := transform.map (fun t =>
    natToDecBytes (_vox_make_packed_rotation_from_transform t))
  let node_dict_size := 4 +
    _vox_dict_key_value_size (strBytes "_name") name +
    _vox_dict_key_value_size (strBytes "_hidden") hidden_string
  let frame_dict_size := 4 +
    _vox_dict_key_value_size (strBytes "_t") t_string +
    _vox_dict_key_value_size (strBytes "_r") r_string
  let chunk_size_ntrn := 4 + node_dict_size + 16 + frame_dict_size
  u32le CHUNK_ID_nTRN ++ u32le chunk_size_ntrn ++ u32le 0 ++
  u32le node_id ++
  u32le ((if name.isSome then 1 else 0) +
    (if hidden_string.isSome then 1 else 0)) ++
  _vox_file_write_dict_key_value (strBytes "_name") name ++
  _vox_file_write_dict_key_value (strBytes "_hidden") hidden_string ++
  u32le child_node_id ++
  u32le 4294967295 ++
  u32le layer_id ++
  u32le 1 ++
  u32le ((if r_string.isSome then 1 else 0) +
    (if t_string.isSome then 1 else 0)) ++
  _vox_file_write_dict_key_value (strBytes "_r") r_string ++
  _vox_file_write_dict_key_value (strBytes "_t") t_string

/-- The number of solid (nonzero) voxels of a grid, scanned over
`size_x*size_y*size_z` cells as the writer does. -/
def numSolidVoxels (m : ogt_vox_model) : Nat :=
  ((List.range (m.size_x * m.size_y * m.size_z)).filter
    (fun k => m.voxel_data.getD k 0 ≠ 0)).length

/-- The `SIZE` chunk of one model. -/
def sizeChunkBytes (m : ogt_vox_model) : List Nat :=
  u32le CHUNK_ID_SIZE ++ u32le 12 ++ u32le 0 ++
  u32le m.size_x ++ u32le m.size_y ++ u32le m.size_z

/-- The `XYZI` chunk of one model: solid voxels in `z, y, x` iteration
order; coordinates are truncated to `uint8_t` on write (`(uint8_t)x`),
which matters exactly when a dimension exceeds 255 (the ≤ 126 constraint
is only a debug assert). -/
def xyziChunkBytes (m : ogt_vox_model) : List Nat :=
  let quads := ((List.range m.size_z).map (fun z =>
    ((List.range m.size_y).map (fun y =>
      ((List.range m.size_x).map (fun x =>
        let ci := m.voxel_data.getD
          (x + y * m.size_x + z * m.size_x * m.size_y) 0
        if ci ≠ 0 then [x % 256, y % 256, z % 256, ci]
        else [])).flatten)).flatten)).flatten
  u32le CHUNK_ID_XYZI ++ u32le (4 + 4 * numSolidVoxels m) ++ u32le 0 ++
  u32le (numSolidVoxels m) ++ quads

/-- The root `nGRP` chunk (node 1) whose children are the per-instance
transform nodes (ids `2 + num_models ..`). -/
def grpChunkBytes (num_models num_instances : Nat) : List Nat :=
  u32le CHUNK_ID_nGRP ++
  u32le (4 + 4 + 4 + 4 * num_instances) ++
  u32le 0 ++
  u32le 1 ++ u32le 0 ++ u32le num_instances ++
  ((List.range num_instances).map
    (fun i => u32le (2 + num_models + i))).flatten

/-- One `nSHP` chunk per model (node ids `2 .. 2 + num_models`). -/
def shpChunksBytes (num_models : Nat) : List Nat :=
  ((List.range num_models).map (fun i =>
    u32le CHUNK_ID_nSHP ++ u32le 20 ++ u32le 0 ++
    u32le (2 + i) ++ u32le 0 ++ u32le 1 ++ u32le i ++ u32le 0)).flatten

/-- The `RGBA` chunk: the palette rotated back one step
(`rotated[i] = palette[(i + 1) & 255]`). -/
def rgbaChunkBytes (palette : List ogt_vox_rgba) : List Nat :=
  u32le CHUNK_ID_RGBA ++ u32le 1024 ++ u32le 0 ++
  ((List.range 256).map (fun i =>
    let c := palette.getD ((i + 1) % 256) (ogt_vox_rgba.mk 0 0 0 0)
    [c.r, c.g, c.b, c.a])).flatten

/-- One `LAYR` chunk (`layer_id` = array position, reserved id −1). -/
def layrChunkBytes (i : Nat) (layer : ogt_vox_layer) : List Nat :=
  let hidden_string : Option (List Nat) :=
    if layer.hidden then some [49] else none
  u32le CHUNK_ID_LAYR ++
  u32le (4 + 4 + _vox_dict_key_value_size (strBytes "_name") layer.name +
    _vox_dict_key_value_size (strBytes "_hidden") hidden_string + 4) ++
  u32le 0 ++
  u32le i ++
  u32le ((if layer.name.isSome then 1 else 0) +
    (if hidden_string.isSome then 1 else 0)) ++
  _vox_file_write_dict_key_value (strBytes "_name") layer.name ++
  _vox_file_write_dict_key_value (strBytes "_hidden") hidden_string ++
  u32le 4294967295

/-- Everything `ogt_vox_write_scene` writes after the `MAIN` header, in
source order: per-model `SIZE`/`XYZI` chunks, the fixed scene graph (root
transform node 0, root group node 1, one `nSHP` per model, one `nTRN` per
instance pointing at its model's shape node), the rotated palette and the
layer chunks. -/
def writeSceneBody (scene : ogt_vox_scene) : List Nat :=
  let num_models := scene.models.length
  let num_instances := scene.instances.length
  (scene.models.map (fun m => sizeChunkBytes m ++ xyziChunkBytes m)).flatten ++
  _vox_file_write_chunk_nTRN 0 1 none false none 4294967295 ++
  grpChunkBytes num_models num_instances ++
  shpChunksBytes num_models ++
  ((List.range num_instances).map (fun i =>
    let inst := scene.instances.getD i
      (ogt_vox_instance.mk none _vox_transform_identity 0 0 false)
    _vox_file_write_chunk_nTRN (2 + num_models + i)
      (2 + inst.model_index) inst.name inst.hidden (some inst.transform)
      inst.layer_index)).flatten ++
  rgbaChunkBytes scene.palette ++
  ((List.range scene.layers.length).map (fun i =>
    layrChunkBytes i
      (scene.layers.getD i (ogt_vox_layer.mk none false)))).flatten

/-- Source: `ogt_vox_write_scene`: magic, version 150, and the `MAIN` chunk whose
child-size field the source back-patches after writing everything (the
model writes it directly, producing the identical byte string).  The
dimension bound (≤ 126 per axis) and the axis-alignment of instance
rotations are checked only by debug asserts: the function has no failure
path and always returns a buffer. -/
def ogt_vox_write_scene (scene : ogt_vox_scene) : List Nat :=
  u32le CHUNK_ID_VOX_ ++ u32le 150 ++
  u32le CHUNK_ID_MAIN ++ u32le 0 ++ u32le (writeSceneBody scene).length ++
  writeSceneBody scene

/-- A scene whose single model is 130×1×1 — a dimension above the 126
limit. -/
def oversizeScene : ogt_vox_scene :=
  { models := [⟨130, 1, 1, 0, 1 :: List.replicate 129 0⟩]
    instances := []
    layers := []
    palette := [] }

/-- A scene with one instance whose transform's rotation part is not a
signed axis permutation (`m00 = 2`). -/
def skewScene : ogt_vox_scene :=
  { models := [⟨1, 1, 1, 0, [1]⟩]
    instances := [⟨none, { _vox_transform_identity with m00 := 2 }, 0, 0,
      false⟩]
    layers := []
    palette := [] }

/-- C8 counterexample: `ogt_vox_write_scene` does *not* refuse a scene
with a model dimension above 126, nor one whose instance rotation is not
an axis permutation — both constraints are debug asserts only, and the
writer emits a complete buffer (starting with the `VOX ` header) for
either scene. -/
theorem writer_does_not_refuse_invalid_scenes :
    126 < (oversizeScene.models.getD 0 (ogt_vox_model.mk 0 0 0 0 [])).size_x ∧
    (ogt_vox_write_scene oversizeScene).take 8 =
      u32le CHUNK_ID_VOX_ ++ u32le 150 ∧
    ogt_vox_write_scene oversizeScene ≠ [] ∧
    (ogt_vox_write_scene skewScene).take 8 =
      u32le CHUNK_ID_VOX_ ++ u32le 150 ∧
    ogt_vox_write_scene skewScene ≠ [] := by
  refine ⟨by decide, by decide, by decide, by decide, by decide⟩

/-- C8 (amended): the writer has no failure path: for *every* scene it
returns a byte buffer beginning with the `VOX ` magic and version 150; the
dimension and rotation constraints are enforced only by debug asserts
(out-of-range coordinates are silently truncated to 8 bits on emission). -/
theorem writer_always_returns_buffer (scene : ogt_vox_scene) :
    ∃ rest : List Nat,
      ogt_vox_write_scene scene = u32le CHUNK_ID_VOX_ ++ u32le 150 ++ rest :=
  ⟨_, rfl⟩

/-- C9 counterexample: for an instance `nTRN` chunk built from the
identity transform — zero translation and packed rotation byte 4 — the
frame dictionary still holds two pairs (its pair-count field, at byte
offset 36 after the empty node dictionary, is 2, not 0), and the `_r` key
follows at offsets 44–45. -/
theorem ntrn_identity_still_emits_keys :
    (_vox_transform_identity.m30 = 0 ∧ _vox_transform_identity.m31 = 0 ∧
      _vox_transform_identity.m32 = 0) ∧
    _vox_make_packed_rotation_from_transform _vox_transform_identity = 4 ∧
    ((_vox_file_write_chunk_nTRN 5 2 none false
        (some _vox_transform_identity) 0).getD 36 0 = 2 ∧
     (_vox_file_write_chunk_nTRN 5 2 none false
        (some _vox_transform_identity) 0).getD 44 0 = 95 ∧
     (_vox_file_write_chunk_nTRN 5 2 none false
        (some _vox_transform_identity) 0).getD 45 0 = 114) := by
  refine ⟨by decide, by decide, by decide, by decide, by decide⟩

/-- C9 (amended): in an `nTRN` chunk the node dictionary holds `_name`
iff a name is given and `_hidden` iff hidden, and the frame dictionary
holds **both** `_r` and `_t` whenever the transform pointer is non-NULL —
as it is for every instance chunk, regardless of the translation being
zero or the packed byte being the identity 4 — and neither key when it is
NULL (only the root chunk). -/
theorem ntrn_dictionary_emission (node_id child_node_id layer_id : Nat)
    (name : Option (List Nat)) (hidden : Bool)
    (transform : Option ogt_vox_transform) :
    (_vox_file_write_chunk_nTRN node_id child_node_id name hidden transform
        layer_id).drop 12 =
      u32le node_id ++
      u32le ((if name.isSome then 1 else 0) + (if hidden then 1 else 0)) ++
      _vox_file_write_dict_key_value (strBytes "_name") name ++
      _vox_file_write_dict_key_value (strBytes "_hidden")
        (if hidden then some [49] else none) ++
      u32le child_node_id ++ u32le 4294967295 ++ u32le layer_id ++
      u32le 1 ++
      u32le (if transform.isSome then 2 else 0) ++
      (match transform with
       | some t =>
         _vox_file_write_dict_key_value (strBytes "_r")
           (some (natToDecBytes
             (_vox_make_packed_rotation_from_transform t))) ++
         _vox_file_write_dict_key_value (strBytes "_t")
           (some (intToDecBytes t.m30 ++ [32] ++ intToDecBytes t.m31 ++
             [32] ++ intToDecBytes t.m32))
       | none => []) := by
  cases transform <;> cases name <;> cases hidden <;>
    simp [_vox_file_write_chunk_nTRN, _vox_file_write_dict_key_value, u32le]

end OgtVox
